import Mathlib

/-!
Verification of the Datagate → NGP forwarder (`src/main.py`).

The Python source is shallowly embedded: floats become exact rationals
(`ℚ`), Python `dict`s become insertion-ordered association lists with the
same update semantics, optional values become `Option`, and the external
collaborators (the NGP delivery call, the wall clock) become parameters of
the ingest pipeline.  The XML extraction step is embedded at the level of
the already-extracted per-event fields (the `get`/`to_float` results), and
file-system logging (daily JSONL, raw snapshots) is outside the model.
-/


namespace Lacak

/-! ### Python-level helpers -/

/-- ASCII lowercasing of one character, embedding Python `str.casefold` /
`str.lower` at the ASCII level. -/
def lowerChar (c : Char) : Char :=
  if 'A' ≤ c ∧ c ≤ 'Z' then Char.ofNat (c.toNat + 32) else c

/-- Python whitespace class used by `str.strip()`. -/
def isSpaceChar (c : Char) : Bool :=
  c = ' ' ∨ c = '\t' ∨ c = '\n' ∨ c = '\r' ∨ c = '\x0b' ∨ c = '\x0c'

/-- Python `s.lower()` / `s.casefold()` (ASCII level). -/
def strLower (s : String) : String := ⟨s.data.map lowerChar⟩

/-- Python `s.strip()`: drop leading and trailing whitespace. -/
def strStrip (s : String) : String :=
  ⟨((s.data.dropWhile isSpaceChar).reverse.dropWhile isSpaceChar).reverse⟩

/-- Python truthiness test for an optional string: `None` and `""` are falsy
(`if not name`, `a or b`). -/
def isBlank : Option String → Bool
  | none => true
  | some s => s = ""

/-- Python `a or b` for an optional string `a` and a string `b`:
falls through to `b` when `a` is `None` or empty. -/
def pyOrStr (a : Option String) (b : String) : String :=
  match a with
  | none => b
  | some s => if s = "" then b else s

/-- Python `a or b` where both operands are optional strings. -/
def strOr (a b : Option String) : Option String :=
  match a with
  | none => b
  | some s => if s = "" then b else some s

/-- Python 3 `round` to the nearest integer, ties to even (banker's
rounding), on an exact rational. -/
def pyRound (q : ℚ) : ℤ :=
  let n := ⌊q⌋
  let frac := q - n
  if frac < 1/2 then n
  else if 1/2 < frac then n + 1
  else if n % 2 = 0 then n else n + 1

/-! ### Configuration (`main.py` lines 29–52) -/

/-- `SPEED_UNIT_FALLBACK = "kmh"`: fallback unit when the XML has no
`units` attribute. -/
def SPEED_UNIT_FALLBACK : String := "kmh"

/-! ### Utils (`main.py` lines 66–110) -/

/-- `norm_name`: `s.strip().casefold() if s else None`.  Casefolding is
embedded as ASCII lowercasing. -/
def norm_name (s : Option String) : Option String :=
  match s with
  | none => none
  | some s => if s = "" then none else some (strLower (strStrip s))

/-- `normalize_unit`: case-insensitive unit-tag normalization with synonym
sets; `None`/empty and unknown tags fall back to `"kmh"`. -/
def normalize_unit (unit : Option String) : String :=
  match unit with
  | none => "kmh"
  | some s =>
    if s = "" then "kmh"
    else
      let u := strLower (strStrip s)
      if u = "kmh" ∨ u = "kph" ∨ u = "km/h" then "kmh"
      else if u = "mph" ∨ u = "mi/h" then "mph"
      else if u = "knots" ∨ u = "knot" ∨ u = "kt" ∨ u = "kts" then "knots"
      else if u = "m/s" ∨ u = "mps" ∨ u = "ms" then "mps"
      else "kmh"

/-- `any_to_mps`: convert an incoming speed to canonical meters per second.
`kmh ÷ 3.6`, `mph × 0.44704`, `knots × 0.514444`, `mps` unchanged, default
`÷ 3.6`. -/
def any_to_mps (v : Option ℚ) (unit : String) : Option ℚ :=
  match v with
  | none => none
  | some v =>
    let u := normalize_unit (some unit)
    if u = "kmh" then some (v / (36/10))
    else if u = "mph" then some (v * (44704/100000))
    else if u = "knots" then some (v * (514444/1000000))
    else if u = "mps" then some v
    else some (v / (36/10))

/-- `mps_to_kmh`: `None if v_mps is None else v_mps * 3.6`. -/
def mps_to_kmh (v_mps : Option ℚ) : Option ℚ :=
  v_mps.map (fun v => v * (36/10))

/-- `mps_to_knots`: `None if v_mps is None else v_mps * 1.943844`. -/
def mps_to_knots (v_mps : Option ℚ) : Option ℚ :=
  v_mps.map (fun v => v * (1943844/1000000))

/-! ### Python dict semantics

`LAST_POS` and `NAME_TO_IMEI` are Python dicts: insertion-ordered maps
with unique keys.  `dictSet` is `d[k] = v` (replace in place when the key
exists, else append); `dictGet` is `d.get(k)`. -/

def dictSet {α : Type} (d : List (String × α)) (k : String) (v : α) :
    List (String × α) :=
  match d with
  | [] => [(k, v)]
  | (k', v') :: rest =>
    if k' = k then (k, v) :: rest else (k', v') :: dictSet rest k v

def dictGet {α : Type} (d : List (String × α)) (k : String) : Option α :=
  match d with
  | [] => none
  | (k', v') :: rest => if k' = k then some v' else dictGet rest k

/-! ### Data model of one extracted event (`receive_datagate`, lines 266–301)

One `<AssetEvent>` after the `get`/`to_float`/`int` extraction steps:
each field holds the result of the corresponding extraction (text fields
are stripped; `none` is a missing element, empty text, or a failed numeric
parse). -/

structure AssetEvent where
  name : Option String
  rx_time : Option String
  gmt_time : Option String
  gps_valid : Bool
  lat : Option ℚ
  lon : Option ℚ
  sp_raw : Option ℚ
  sp_unit_attr : Option String
  heading : Option ℚ
  sats : Option ℤ
  alt : Option ℚ
  battery_level : Option ℤ
deriving DecidableEq

/-- One `LAST_POS` entry (lines 358–370).  `lat`/`lon` keep the `Option`
type of the extracted variables they are assigned from; the write is
guarded by a both-present check.  The raw-snapshot path (a filesystem
artifact) is outside the model. -/
structure CacheEntry where
  asset_name : String
  lat : Option ℚ
  lon : Option ℚ
  rx_time : String
  gps_valid : Bool
  speed_kmh : Option ℚ
  speed_knots : Option ℚ
  heading_calculation : Option ℤ
deriving DecidableEq

/-- The `location` block of the NGP payload (lines 394–407).  A `none`
field is a key that is *omitted* from the JSON object. -/
structure Location where
  gnss_time : Option String
  fix_type : String
  latitude : Option ℚ
  longitude : Option ℚ
  satellites : Option ℤ
  altitude : Option ℚ
  speed : Option ℤ
  heading : Option ℤ
deriving DecidableEq

/-- The NGP payload (lines 409–415). -/
structure Payload where
  device_id : String
  message_time : String
  location : Location
  battery_level : Option ℤ
deriving DecidableEq

/-- The mutable server state touched by ingest: the two global dicts, the
batch's forwarded count `sent`, and the trace of attempted deliveries
(payload passed to `post_ngp`, paired with its success flag). -/
structure IngestState where
  mappings : List (String × String)
  cache : List (String × CacheEntry)
  sent : ℕ
  delivered : List (Payload × Bool)
deriving DecidableEq

/-! ### Per-event derivations (lines 279–317) -/

/-- Line 282: `sp_unit_in = normalize_unit(sp_unit_attr or SPEED_UNIT_FALLBACK)`. -/
def event_sp_unit_in (ev : AssetEvent) : String :=
  normalize_unit (some (pyOrStr ev.sp_unit_attr SPEED_UNIT_FALLBACK))

/-- Line 308: `v_mps = any_to_mps(sp_raw, sp_unit_in) if sp_raw is not None else None`. -/
def event_v_mps (ev : AssetEvent) : Option ℚ :=
  match ev.sp_raw with
  | none => none
  | some _ => any_to_mps ev.sp_raw (event_sp_unit_in ev)

/-- Line 313: `kmh_int_floor = int(math.floor(kmh_val)) if kmh_val is not None else None`. -/
def event_kmh_int_floor (ev : AssetEvent) : Option ℤ :=
  (mps_to_kmh (event_v_mps ev)).map (fun q => ⌊q⌋)

/-- Line 314: `knots_1dp_floor = math.floor(knots_val * 10) / 10.0`. -/
def event_knots_1dp_floor (ev : AssetEvent) : Option ℚ :=
  (mps_to_knots (event_v_mps ev)).map (fun q => (⌊q * 10⌋ : ℚ) / 10)

/-- Line 316, applied to a present heading: `int(round(heading)) % 360`
(Python `%` on a positive modulus is the Euclidean remainder, as is
`Int.emod`). -/
def heading_norm (h : ℚ) : ℤ := pyRound h % 360

/-- Line 316: `heading_deg = int(round(heading)) % 360 if heading is not None else None`. -/
def event_heading_deg (ev : AssetEvent) : Option ℤ :=
  ev.heading.map heading_norm

/-- Line 317: `key_norm = norm_name(name) or name.strip().casefold()`. -/
def event_key_norm (ev : AssetEvent) : String :=
  let name := ev.name.getD ""
  pyOrStr (norm_name (some name)) (strLower (strStrip name))

/-- Lines 358–370: the new `LAST_POS[key_norm]` record.  `now` is the
value of `now_utc_iso()` at this point. -/
def build_cache_entry (now : String) (ev : AssetEvent) : CacheEntry :=
  { asset_name := ev.name.getD ""
    lat := ev.lat
    lon := ev.lon
    rx_time := pyOrStr (strOr ev.rx_time ev.gmt_time) now
    gps_valid := ev.gps_valid
    speed_kmh := (event_kmh_int_floor ev).map (fun i => (i : ℚ))
    speed_knots := event_knots_1dp_floor ev
    heading_calculation := event_heading_deg ev }

/-- Lines 375–378: first mapping entry whose normalized display name equals
`key_norm`; the matched IMEI is stripped. -/
def find_imei (mappings : List (String × String)) (key_norm : String) :
    Option String :=
  match mappings with
  | [] => none
  | (display, val) :: rest =>
    if norm_name (some display) = some key_norm then some (strStrip val)
    else find_imei rest key_norm

/-- Lines 394–407: the `location` dict; optional keys are set only when the
corresponding value is present. -/
def build_location (ev : AssetEvent) : Location :=
  { gnss_time := strOr ev.gmt_time ev.rx_time
    fix_type := if ev.gps_valid then "HAS_FIX" else "NO_FIX"
    latitude := ev.lat
    longitude := ev.lon
    satellites := ev.sats
    altitude := ev.alt
    speed := event_kmh_int_floor ev
    heading := event_heading_deg ev }

/-- Lines 409–415: the NGP payload for a resolved device. -/
def build_payload (now : String) (ev : AssetEvent) (imei : String) : Payload :=
  { device_id := imei
    message_time := pyOrStr ev.rx_time now
    location := build_location ev
    battery_level := ev.battery_level }

/-! ### The ingest pipeline (`receive_datagate`, lines 252–430) -/

/-- Lines 356–371: update the last-position cache when both coordinates
parsed. -/
def cache_step (now : String) (st : IngestState) (ev : AssetEvent) :
    IngestState :=
  if ev.lat.isSome ∧ ev.lon.isSome then
    { st with cache := dictSet st.cache (event_key_norm ev) (build_cache_entry now ev) }
  else st

/-- Lines 373–428: resolve the device, build the payload, attempt one
delivery (`deliver` abstracts `post_ngp`), and count a success. -/
def forward_step (deliver : Payload → Bool) (now : String)
    (st : IngestState) (ev : AssetEvent) : IngestState :=
  match find_imei st.mappings (event_key_norm ev) with
  | none => st
  | some imei =>
    if imei = "" then st
    else if ev.lat.isNone ∨ ev.lon.isNone then st
    else
      let payload := build_payload now ev imei
      let ok := deliver payload
      { st with
        delivered := st.delivered ++ [(payload, ok)]
        sent := if ok then st.sent + 1 else st.sent }

/-- One iteration of the `for ev in events` loop (lines 266–428):
a blank `AssetDescription` skips the event (line 303); otherwise the cache
is updated and forwarding is attempted. -/
def process_event (deliver : Payload → Bool) (now : String)
    (st : IngestState) (ev : AssetEvent) : IngestState :=
  if isBlank ev.name then st
  else forward_step deliver now (cache_step now st ev) ev

/-- The whole event loop over a parsed batch. -/
def process_batch (deliver : Payload → Bool) (now : String)
    (st : IngestState) : List AssetEvent → IngestState
  | [] => st
  | ev :: rest => process_batch deliver now (process_event deliver now st ev) rest

/-- A plain-text HTTP response as produced by the ingest endpoint. -/
structure HttpResponse where
  content : String
  media_type : String
  status_code : ℕ
deriving DecidableEq

/-- The `POST /` handler (lines 252–430).  `doc` is the result of XML
parsing: `none` is a `ParseError` (lines 259–263, answered `"BAD XML"`
with status 200); otherwise the extracted `AssetEvent` list is processed
and the handler answers `OK (sent)` (line 430, default status 200). -/
def receive_datagate (deliver : Payload → Bool) (now : String)
    (st : IngestState) (doc : Option (List AssetEvent)) :
    HttpResponse × IngestState :=
  match doc with
  | none => (⟨"BAD XML", "text/plain", 200⟩, st)
  | some events =>
    let stf := process_batch deliver now st events
    (⟨"OK (" ++ toString stf.sent ++ ")", "text/plain", 200⟩, stf)

/-! ### Weather endpoint (`asset_last_weather`, lines 433–460) -/

/-- Lines 444–449: `speed_calculation` is the cached `speed_knots` taken
as-is, defaulting to `0.0` when absent. -/
def weather_speed_calc (rec : CacheEntry) : ℚ :=
  match rec.speed_knots with
  | some q => q
  | none => 0

/-- Lines 451–457: the asset-metadata block merged into the weather
output. -/
structure AssetMeta where
  asset_name : String
  timestamp : String
  heading_calculation : Option ℤ
  speed_calculation : ℚ
deriving DecidableEq

/-- Outcome of `GET /asset/{name}/weather` up to the external weather
call: `notFound` is the 404 (line 438); `convError` is the unhandled
exception from `float(rec["lat"])`/`float(rec["lon"])` on a null
coordinate (line 440); `ok` carries the coordinates passed to the weather
collaborator and the asset-metadata block. -/
inductive WeatherResult where
  | notFound : WeatherResult
  | convError : WeatherResult
  | ok : ℚ → ℚ → AssetMeta → WeatherResult
deriving DecidableEq

/-- The cache-reading part of `asset_last_weather` (lines 433–457). -/
def asset_last_weather (cache : List (String × CacheEntry))
    (asset_name : String) : WeatherResult :=
  match norm_name (some asset_name) with
  | none => WeatherResult.notFound
  | some key =>
    match dictGet cache key with
    | none => WeatherResult.notFound
    | some rec =>
      match rec.lat, rec.lon with
      | some la, some lo =>
        WeatherResult.ok la lo
          { asset_name := rec.asset_name
            timestamp := rec.rx_time
            heading_calculation := rec.heading_calculation
            speed_calculation := weather_speed_calc rec }
      | _, _ => WeatherResult.convError

/-! ### Mapping management (`add_mapping`, lines 508–514) -/

/-- `POST /mappings`: `NAME_TO_IMEI[m.name] = m.imei` — an unconditional
dict assignment keyed by the exact display name. -/
def add_mapping (mappings : List (String × String)) (name imei : String) :
    List (String × String) :=
  dictSet mappings name imei

/-! ### Specification-side definitions (for refinement comparisons only) -/

/-- Modelled from the spec: `v_in_kmh_exact`, the exact value of a speed
`v` in km/h given its unit, using the exact conversion factors
(1 mph = 1.609344 km/h, 1 knot = 1.852 km/h, 1 m/s = 3.6 km/h). -/
def exact_kmh (v : ℚ) (u : String) : ℚ :=
  if u = "kmh" then v
  else if u = "mph" then v * (1609344/1000000)
  else if u = "knots" then v * (1852/1000)
  else if u = "mps" then v * (36/10)
  else v

/-- Modelled from the spec: "`mps × 1.943844`, reported with 3-decimal
precision" — the knots value rounded to three decimal places. -/
def spec_round3 (q : ℚ) : ℚ := (round (q * 1000) : ℚ) / 1000

/-- Invariant: every cached entry has both coordinates present. -/
def cache_coords_ok (c : List (String × CacheEntry)) : Prop :=
  ∀ p ∈ c, p.2.lat.isSome = true ∧ p.2.lon.isSome = true

/-- Invariant: the forwarded count equals the number of successful
deliveries in the delivery trace. -/
def sent_matches (st : IngestState) : Prop :=
  st.sent = (st.delivered.filter fun pb => pb.2).length



/-! ## Library lemmas about Python dict semantics -/

theorem dictGet_dictSet_self {α : Type} (d : List (String × α)) (k : String)
    (v : α) : dictGet (dictSet d k v) k = some v := by
  induction d with
  | nil => simp [dictSet, dictGet]
  | cons p rest ih =>
    obtain ⟨k0, v0⟩ := p
    by_cases h : k0 = k
    · simp [dictSet, dictGet, h]
    · simp [dictSet, dictGet, h, ih]

theorem dictGet_dictSet_ne {α : Type} (d : List (String × α)) (k q : String)
    (v : α) (h : q ≠ k) : dictGet (dictSet d k v) q = dictGet d q := by
  induction d with
  | nil => simp [dictSet, dictGet, Ne.symm h]
  | cons p rest ih =>
    obtain ⟨k0, v0⟩ := p
    by_cases h0 : k0 = k
    · subst h0
      simp [dictSet, dictGet, Ne.symm h]
    · simp [dictSet, dictGet, h0, ih]

theorem dictSet_dictSet {α : Type} (d : List (String × α)) (k : String)
    (a b : α) : dictSet (dictSet d k a) k b = dictSet d k b := by
  induction d with
  | nil => simp [dictSet]
  | cons p rest ih =>
    obtain ⟨k0, v0⟩ := p
    by_cases h : k0 = k
    · simp [dictSet, h]
    · simp [dictSet, h, ih]

theorem mem_dictSet {α : Type} (d : List (String × α)) (k : String) (v : α)
    (p : String × α) (hp : p ∈ dictSet d k v) : p ∈ d ∨ p = (k, v) := by
  induction d with
  | nil => simpa [dictSet] using hp
  | cons q rest ih =>
    obtain ⟨k0, v0⟩ := q
    by_cases h : k0 = k
    · simp only [dictSet, if_pos h] at hp
      rcases List.mem_cons.mp hp with h1 | h1
      · exact Or.inr h1
      · exact Or.inl (List.mem_cons_of_mem _ h1)
    · simp only [dictSet, if_neg h] at hp
      rcases List.mem_cons.mp hp with h1 | h1
      · exact Or.inl (h1 ▸ List.mem_cons_self _ _)
      · rcases ih h1 with h2 | h2
        · exact Or.inl (List.mem_cons_of_mem _ h2)
        · exact Or.inr h2

theorem mem_keys_dictSet {α : Type} (d : List (String × α)) (k : String)
    (v : α) (x : String) (hx : x ∈ (dictSet d k v).map Prod.fst) :
    x ∈ d.map Prod.fst ∨ x = k := by
  rcases List.mem_map.mp hx with ⟨p, hp, hpx⟩
  rcases mem_dictSet d k v p hp with h | h
  · exact Or.inl (hpx ▸ List.mem_map_of_mem Prod.fst h)
  · subst h
    exact Or.inr hpx.symm

theorem keys_nodup_dictSet {α : Type} (d : List (String × α)) (k : String)
    (v : α) (h : (d.map Prod.fst).Nodup) :
    ((dictSet d k v).map Prod.fst).Nodup := by
  induction d with
  | nil => simp [dictSet]
  | cons p rest ih =>
    obtain ⟨k0, v0⟩ := p
    simp only [List.map_cons, List.nodup_cons] at h
    by_cases h0 : k0 = k
    · subst h0
      simpa [dictSet, List.nodup_cons] using h
    · simp only [dictSet, if_neg h0, List.map_cons, List.nodup_cons]
      refine ⟨fun hmem => ?_, ih h.2⟩
      rcases mem_keys_dictSet rest k v k0 hmem with hh | hh
      · exact h.1 hh
      · exact h0 hh

theorem dictGet_mem {α : Type} (d : List (String × α)) (k : String) (v : α)
    (h : dictGet d k = some v) : (k, v) ∈ d := by
  induction d with
  | nil => simp [dictGet] at h
  | cons p rest ih =>
    obtain ⟨k0, v0⟩ := p
    by_cases h0 : k0 = k
    · subst h0
      simp only [dictGet, if_true, eq_self_iff_true, Option.some.injEq] at h
      subst h
      exact List.mem_cons_self _ _
    · simp only [dictGet, if_neg h0] at h
      exact List.mem_cons_of_mem _ (ih h)

/-! ## Structural lemmas about the ingest pipeline -/

theorem cache_step_mappings (now : String) (st : IngestState) (ev : AssetEvent) :
    (cache_step now st ev).mappings = st.mappings := by
  unfold cache_step; split <;> rfl

theorem cache_step_sent (now : String) (st : IngestState) (ev : AssetEvent) :
    (cache_step now st ev).sent = st.sent := by
  unfold cache_step; split <;> rfl

theorem cache_step_delivered (now : String) (st : IngestState) (ev : AssetEvent) :
    (cache_step now st ev).delivered = st.delivered := by
  unfold cache_step; split <;> rfl

theorem cache_step_cache (now : String) (st : IngestState) (ev : AssetEvent) :
    (cache_step now st ev).cache =
      if ev.lat.isSome ∧ ev.lon.isSome then
        dictSet st.cache (event_key_norm ev) (build_cache_entry now ev)
      else st.cache := by
  unfold cache_step; split <;> rfl

theorem forward_step_mappings (d : Payload → Bool) (now : String)
    (st : IngestState) (ev : AssetEvent) :
    (forward_step d now st ev).mappings = st.mappings := by
  unfold forward_step
  cases find_imei st.mappings (event_key_norm ev) with
  | none => rfl
  | some imei =>
    by_cases h1 : imei = "" <;> by_cases h2 : ev.lat = none ∨ ev.lon = none <;>
      simp [h1, h2]

theorem forward_step_cache (d : Payload → Bool) (now : String)
    (st : IngestState) (ev : AssetEvent) :
    (forward_step d now st ev).cache = st.cache := by
  unfold forward_step
  cases find_imei st.mappings (event_key_norm ev) with
  | none => rfl
  | some imei =>
    by_cases h1 : imei = "" <;> by_cases h2 : ev.lat = none ∨ ev.lon = none <;>
      simp [h1, h2]

theorem process_event_mappings (d : Payload → Bool) (now : String)
    (st : IngestState) (ev : AssetEvent) :
    (process_event d now st ev).mappings = st.mappings := by
  unfold process_event
  split
  · rfl
  · rw [forward_step_mappings, cache_step_mappings]

theorem process_event_cache (d : Payload → Bool) (now : String)
    (st : IngestState) (ev : AssetEvent) :
    (process_event d now st ev).cache =
      if isBlank ev.name then st.cache
      else if ev.lat.isSome ∧ ev.lon.isSome then
        dictSet st.cache (event_key_norm ev) (build_cache_entry now ev)
      else st.cache := by
  unfold process_event
  by_cases hb : isBlank ev.name
  · simp [hb]
  · simp [hb, forward_step_cache, cache_step_cache]

theorem process_event_skip (d : Payload → Bool) (now : String)
    (st : IngestState) (ev : AssetEvent) (h : isBlank ev.name = true) :
    process_event d now st ev = st := by
  unfold process_event
  simp [h]


theorem forward_step_sent_matches (d : Payload → Bool) (now : String)
    (st : IngestState) (ev : AssetEvent) (h : sent_matches st) :
    sent_matches (forward_step d now st ev) := by
  unfold forward_step
  cases find_imei st.mappings (event_key_norm ev) with
  | none => exact h
  | some imei =>
    by_cases h1 : imei = ""
    · simpa [h1] using h
    · by_cases h2 : ev.lat = none ∨ ev.lon = none
      · simpa [h1, h2] using h
      · simp only [sent_matches] at h ⊢
        cases hok : d (build_payload now ev imei) <;>
          simp [h1, h2, hok, List.filter_append, h]

theorem process_event_sent_matches (d : Payload → Bool) (now : String)
    (st : IngestState) (ev : AssetEvent) (h : sent_matches st) :
    sent_matches (process_event d now st ev) := by
  unfold process_event
  split
  · exact h
  · refine forward_step_sent_matches d now _ ev ?_
    simpa [sent_matches, cache_step_sent, cache_step_delivered] using h

theorem process_batch_sent_matches (d : Payload → Bool) (now : String)
    (st : IngestState) (evs : List AssetEvent) (h : sent_matches st) :
    sent_matches (process_batch d now st evs) := by
  induction evs generalizing st with
  | nil => exact h
  | cons ev rest ih =>
    exact ih _ (process_event_sent_matches d now st ev h)

theorem process_batch_append (d : Payload → Bool) (now : String)
    (st : IngestState) (l1 l2 : List AssetEvent) :
    process_batch d now st (l1 ++ l2) =
      process_batch d now (process_batch d now st l1) l2 := by
  induction l1 generalizing st with
  | nil => rfl
  | cons ev rest ih => simpa [process_batch] using ih (process_event d now st ev)

/-! ## Unit-conversion evaluation lemmas (definitional) -/

theorem any_to_mps_kmh (v : ℚ) : any_to_mps (some v) "kmh" = some (v / (36/10)) := rfl

theorem any_to_mps_mph (v : ℚ) :
    any_to_mps (some v) "mph" = some (v * (44704/100000)) := rfl

theorem any_to_mps_knots (v : ℚ) :
    any_to_mps (some v) "knots" = some (v * (514444/1000000)) := rfl

theorem any_to_mps_mps (v : ℚ) : any_to_mps (some v) "mps" = some v := rfl

theorem exact_kmh_kmh (v : ℚ) : exact_kmh v "kmh" = v := rfl

theorem exact_kmh_mph (v : ℚ) : exact_kmh v "mph" = v * (1609344/1000000) := rfl

theorem exact_kmh_knots (v : ℚ) : exact_kmh v "knots" = v * (1852/1000) := rfl

theorem exact_kmh_mps (v : ℚ) : exact_kmh v "mps" = v * (36/10) := rfl

/-! ## Claims -/

/-- C1: for every speed input `v ≥ 0` and every unit in
{kmh, mph, knots, mps}, converting `v` to canonical meters per second with
`any_to_mps` and then taking `floor(mps * 3.6)` as the integer km/h value
(the pipeline's `kmh_int_floor` policy) yields a result that is at most
the exact value of `v` expressed in km/h: flooring never overstates the
speed. -/
theorem C1_floor_never_overstates (v : ℚ) (hv : 0 ≤ v) (u : String)
    (hu : u = "kmh" ∨ u = "mph" ∨ u = "knots" ∨ u = "mps")
    (mpsv kmhv : ℚ)
    (hmps : any_to_mps (some v) u = some mpsv)
    (hkmh : mps_to_kmh (some mpsv) = some kmhv) :
    (⌊kmhv⌋ : ℚ) ≤ exact_kmh v u := by
  have hkm : kmhv = mpsv * (36/10) := by
    simpa [mps_to_kmh] using hkmh.symm
  subst hkm
  rcases hu with rfl | rfl | rfl | rfl
  · have hm : mpsv = v / (36/10) := by
      simpa [any_to_mps_kmh] using hmps.symm
    subst hm
    rw [exact_kmh_kmh, div_mul_cancel₀ v (by norm_num : (36/10 : ℚ) ≠ 0)]
    exact Int.floor_le v
  · have hm : mpsv = v * (44704/100000) := by
      simpa [any_to_mps_mph] using hmps.symm
    subst hm
    rw [exact_kmh_mph]
    calc (⌊v * (44704/100000) * (36/10)⌋ : ℚ)
        ≤ v * (44704/100000) * (36/10) := Int.floor_le _
      _ = v * (1609344/1000000) := by ring
  · have hm : mpsv = v * (514444/1000000) := by
      simpa [any_to_mps_knots] using hmps.symm
    subst hm
    rw [exact_kmh_knots]
    calc (⌊v * (514444/1000000) * (36/10)⌋ : ℚ)
        ≤ v * (514444/1000000) * (36/10) := Int.floor_le _
      _ ≤ v * (1852/1000) := by nlinarith
  · have hm : mpsv = v := by
      simpa [any_to_mps_mps] using hmps.symm
    subst hm
    rw [exact_kmh_mps]
    exact Int.floor_le _

/-- Witness for C1 at `v = 10`, unit `"knots"`. -/
theorem C1_floor_never_overstates_witness :
    (0 : ℚ) ≤ 10 ∧
    (⌊(10 : ℚ) * (514444/1000000) * (36/10)⌋ : ℚ) ≤ exact_kmh 10 "knots" :=
  ⟨by norm_num,
   C1_floor_never_overstates 10 (by norm_num) "knots"
     (Or.inr (Or.inr (Or.inl rfl))) (10 * (514444/1000000))
     (10 * (514444/1000000) * (36/10)) rfl rfl⟩

/-- C4: a document that fails XML parsing is answered with the fixed
plain-text `"BAD XML"` response carrying a success-class (2xx) status,
zero events are processed, and the whole state — the last-position cache,
the device directory, the forwarded count and the delivery trace — is
unchanged. -/
theorem C4_bad_xml_atomic (d : Payload → Bool) (now : String)
    (st : IngestState) :
    receive_datagate d now st none =
      ({ content := "BAD XML", media_type := "text/plain",
         status_code := 200 }, st) ∧
    200 ≤ (receive_datagate d now st none).1.status_code ∧
    (receive_datagate d now st none).1.status_code < 300 ∧
    (receive_datagate d now st none).2.cache = st.cache ∧
    (receive_datagate d now st none).2.mappings = st.mappings ∧
    (receive_datagate d now st none).2.sent = st.sent ∧
    (receive_datagate d now st none).2.delivered = st.delivered :=
  ⟨rfl, by norm_num [receive_datagate], by norm_num [receive_datagate],
   rfl, rfl, rfl, rfl⟩

/-! ## Heading normalization lemmas -/

theorem pyRound_intCast (n : ℤ) : pyRound (n : ℚ) = n := by
  unfold pyRound
  simp [Int.floor_intCast]

theorem heading_norm_nonneg (q : ℚ) : 0 ≤ heading_norm q :=
  Int.emod_nonneg _ (by norm_num)

theorem heading_norm_lt (q : ℚ) : heading_norm q < 360 :=
  Int.emod_lt_of_pos _ (by norm_num)

/-- C6: the heading normalization (round to nearest integer, then modulo
360) always lands in `[0, 360)`; on integers it is invariant under adding
a full turn; and an absent heading stays absent in the cache entry. -/
theorem C6_heading_normalization :
    (∀ q : ℚ, 0 ≤ heading_norm q ∧ heading_norm q < 360) ∧
    (∀ n : ℤ, heading_norm (n : ℚ) = heading_norm ((n : ℚ) + 360)) ∧
    (∀ (now : String) (ev : AssetEvent), ev.heading = none →
      (build_cache_entry now ev).heading_calculation = none) := by
  refine ⟨fun q => ⟨heading_norm_nonneg q, heading_norm_lt q⟩, fun n => ?_, ?_⟩
  · have h1 : ((n : ℚ) + 360) = ((n + 360 : ℤ) : ℚ) := by push_cast; ring
    unfold heading_norm
    rw [h1, pyRound_intCast, pyRound_intCast]
    omega
  · intro now ev h
    simp [build_cache_entry, event_heading_deg, h]

/-- Witness for C6 at heading `-300.2` (lands at 60) and integer `14`,
plus an event with no heading. -/
theorem C6_heading_normalization_witness :
    (0 ≤ heading_norm (-3002/10) ∧ heading_norm (-3002/10) < 360) ∧
    heading_norm ((14 : ℤ) : ℚ) = heading_norm (((14 : ℤ) : ℚ) + 360) ∧
    (AssetEvent.mk (some "a") none none false none none none none none
        none none none).heading = none ∧
    (build_cache_entry "NOW"
      (AssetEvent.mk (some "a") none none false none none none none none
        none none none)).heading_calculation = none :=
  ⟨C6_heading_normalization.1 (-3002/10),
   C6_heading_normalization.2.1 14,
   rfl,
   C6_heading_normalization.2.2 "NOW"
     (AssetEvent.mk (some "a") none none false none none none none none
       none none none) rfl⟩

/-- C2: an event with an asset name and both coordinates present whose
normalized key has no match in the name-to-device directory still updates
the last-position cache with that fix, attempts no delivery, and leaves
the batch forwarded count unchanged; with speed `10` tagged `"knots"` the
cached `speed_kmh` is `18`. -/
theorem C2_cache_without_mapping (d : Payload → Bool) (now : String)
    (st : IngestState) (ev : AssetEvent)
    (hname : isBlank ev.name = false)
    (hlat : ev.lat.isSome = true) (hlon : ev.lon.isSome = true)
    (hmap : find_imei st.mappings (event_key_norm ev) = none) :
    process_event d now st ev =
      { st with cache := (dictSet st.cache (event_key_norm ev)
                          (build_cache_entry now ev)) } ∧
    (process_event d now st ev).sent = st.sent ∧
    (process_event d now st ev).delivered = st.delivered ∧
    (ev.sp_raw = some 10 → ev.sp_unit_attr = some "knots" →
      (build_cache_entry now ev).speed_kmh = some 18) := by
  have hcs : cache_step now st ev =
      { st with cache := (dictSet st.cache (event_key_norm ev)
                          (build_cache_entry now ev)) } := by
    unfold cache_step
    simp [hlat, hlon]
  have hmain : process_event d now st ev =
      { st with cache := (dictSet st.cache (event_key_norm ev)
                          (build_cache_entry now ev)) } := by
    unfold process_event
    rw [if_neg (by simp [hname])]
    unfold forward_step
    rw [cache_step_mappings, hmap, hcs]
  refine ⟨hmain, by rw [hmain], by rw [hmain], fun hsp hunit => ?_⟩
  have hmu : event_sp_unit_in ev = "knots" := by
    unfold event_sp_unit_in
    rw [hunit]
    rfl
  have hv : event_v_mps ev = some ((10 : ℚ) * (514444/1000000)) := by
    unfold event_v_mps
    simp only [hsp, hmu, any_to_mps_knots]
  have hfl : ⌊((10 : ℚ) * (514444/1000000) * (36/10))⌋ = 18 := by
    rw [Int.floor_eq_iff]
    norm_num
  simp only [build_cache_entry, event_kmh_int_floor, hv, mps_to_kmh,
    Option.map_some, Option.some.injEq, hfl]
  norm_num

/-- Concrete ingest record for the C2 scenario: speed `10` tagged
`"knots"`, both coordinates present, and (in the witness) no device
mapping. -/
def evC2 : AssetEvent :=
  { name := some "Sinar Mataram", rx_time := some "T1", gmt_time := none,
    gps_valid := true, lat := some 1, lon := some 2,
    sp_raw := some 10, sp_unit_attr := some "knots", heading := none,
    sats := none, alt := none, battery_level := none }

/-- Witness for C2: ingesting `evC2` against an empty directory updates
the cache, delivers nothing, and caches `speed_kmh = 18`. -/
theorem C2_cache_without_mapping_witness :
    process_event (fun _ => true) "NOW" ⟨[], [], 0, []⟩ evC2 =
      { mappings := [],
        cache := dictSet [] (event_key_norm evC2)
          (build_cache_entry "NOW" evC2),
        sent := 0, delivered := [] } ∧
    (build_cache_entry "NOW" evC2).speed_kmh = some 18 := by
  obtain ⟨h1, h2, h3, h4⟩ :=
    C2_cache_without_mapping (fun _ => true) "NOW" ⟨[], [], 0, []⟩ evC2
      (by decide) rfl rfl rfl
  exact ⟨h1, h4 rfl rfl⟩

/-- C3: the cache holds at most one entry per normalized key (key-list
nodup is preserved by ingest); ingest of a fix with both coordinates
replaces the entry for its key entirely; ingesting the same fix twice
leaves the same cache as once; and ingesting fix A then fix B for the
same key leaves the cache holding exactly B's entry, regardless of A's
content. -/
theorem C3_cache_upsert_semantics :
    (∀ (d : Payload → Bool) (now : String) (st : IngestState)
        (ev : AssetEvent),
      (st.cache.map Prod.fst).Nodup →
      ((process_event d now st ev).cache.map Prod.fst).Nodup) ∧
    (∀ (d : Payload → Bool) (now : String) (st : IngestState)
        (ev : AssetEvent),
      isBlank ev.name = false → ev.lat.isSome = true → ev.lon.isSome = true →
      dictGet (process_event d now st ev).cache (event_key_norm ev) =
        some (build_cache_entry now ev)) ∧
    (∀ (d : Payload → Bool) (now : String) (st : IngestState)
        (ev : AssetEvent),
      (process_event d now (process_event d now st ev) ev).cache =
        (process_event d now st ev).cache) ∧
    (∀ (d : Payload → Bool) (now : String) (st : IngestState)
        (evA evB : AssetEvent),
      isBlank evB.name = false → evB.lat.isSome = true →
      evB.lon.isSome = true → event_key_norm evA = event_key_norm evB →
      dictGet (process_event d now (process_event d now st evA) evB).cache
        (event_key_norm evB) = some (build_cache_entry now evB)) := by
  refine ⟨?_, ?_, ?_, ?_⟩
  · intro d now st ev h
    rw [process_event_cache]
    split_ifs with h1 h2
    · exact h
    · exact keys_nodup_dictSet _ _ _ h
    · exact h
  · intro d now st ev hname hlat hlon
    rw [process_event_cache]
    simp [hname, hlat, hlon, dictGet_dictSet_self]
  · intro d now st ev
    by_cases hb : isBlank ev.name = true
    · simp [process_event_cache, hb]
    · by_cases hv : ev.lat.isSome = true ∧ ev.lon.isSome = true <;>
        simp [process_event_cache, hb, hv, dictSet_dictSet]
  · intro d now st evA evB hname hlat hlon hkey
    rw [process_event_cache]
    simp [hname, hlat, hlon, dictGet_dictSet_self]

/-- Witness for C3 on the concrete record `evC2` over an empty cache. -/
theorem C3_cache_upsert_semantics_witness :
    (((process_event (fun _ => true) "NOW" ⟨[], [], 0, []⟩
        evC2).cache.map Prod.fst).Nodup) ∧
    dictGet (process_event (fun _ => true) "NOW" ⟨[], [], 0, []⟩ evC2).cache
        (event_key_norm evC2) = some (build_cache_entry "NOW" evC2) ∧
    (process_event (fun _ => true) "NOW"
        (process_event (fun _ => true) "NOW" ⟨[], [], 0, []⟩ evC2)
        evC2).cache =
      (process_event (fun _ => true) "NOW" ⟨[], [], 0, []⟩ evC2).cache ∧
    dictGet (process_event (fun _ => true) "NOW"
        (process_event (fun _ => true) "NOW" ⟨[], [], 0, []⟩ evC2)
        evC2).cache (event_key_norm evC2) =
      some (build_cache_entry "NOW" evC2) := by
  obtain ⟨p1, p2, p3, p4⟩ := C3_cache_upsert_semantics
  exact ⟨p1 _ "NOW" _ evC2 (by simp),
         p2 _ "NOW" _ evC2 (by decide) rfl rfl,
         p3 _ "NOW" _ evC2,
         p4 _ "NOW" _ evC2 evC2 (by decide) rfl rfl rfl⟩

/-- C5: a record lacking an asset name is skipped without aborting the
batch (processing the batch with it equals processing the batch without
it), the acknowledgment count equals the number of delivery attempts that
succeeded, and the plain-text response reports exactly that count. -/
theorem C5_skip_independence (d : Payload → Bool) (now : String)
    (st : IngestState) (pre post : List AssetEvent) (bad : AssetEvent)
    (hbad : isBlank bad.name = true) :
    process_batch d now st (pre ++ bad :: post) =
      process_batch d now st (pre ++ post) ∧
    (∀ (maps : List (String × String))
        (cache : List (String × CacheEntry)) (evs : List AssetEvent),
      (process_batch d now ⟨maps, cache, 0, []⟩ evs).sent =
        ((process_batch d now ⟨maps, cache, 0, []⟩ evs).delivered.filter
          (fun pb => pb.2)).length) ∧
    (∀ (st2 : IngestState) (evs : List AssetEvent),
      (receive_datagate d now st2 (some evs)).1 =
        ⟨"OK (" ++ toString (process_batch d now st2 evs).sent ++ ")",
         "text/plain", 200⟩) := by
  refine ⟨?_, ?_, ?_⟩
  · induction pre generalizing st with
    | nil =>
      simp only [List.nil_append, process_batch]
      rw [process_event_skip d now st bad hbad]
    | cons e rest ih =>
      simp only [List.cons_append, process_batch]
      exact ih (process_event d now st e)
  · intro maps cache evs
    have h := process_batch_sent_matches d now ⟨maps, cache, 0, []⟩ evs
      (by simp [sent_matches])
    simpa [sent_matches] using h
  · intro st2 evs
    rfl

/-- An ingest record with no `AssetDescription`. -/
def evBad : AssetEvent :=
  { name := none, rx_time := none, gmt_time := none, gps_valid := false,
    lat := none, lon := none, sp_raw := none, sp_unit_attr := none,
    heading := none, sats := none, alt := none, battery_level := none }

/-- Witness for C5: a nameless record alone is a no-op, and on the batch
`[evC2, evBad]` the forwarded count matches the successful deliveries. -/
theorem C5_skip_independence_witness :
    process_batch (fun _ => true) "NOW" ⟨[], [], 0, []⟩
        ([] ++ evBad :: []) =
      process_batch (fun _ => true) "NOW" ⟨[], [], 0, []⟩ ([] ++ []) ∧
    (process_batch (fun _ => true) "NOW" ⟨[], [], 0, []⟩
        [evC2, evBad]).sent =
      ((process_batch (fun _ => true) "NOW" ⟨[], [], 0, []⟩
        [evC2, evBad]).delivered.filter (fun pb => pb.2)).length := by
  obtain ⟨p1, p2, p3⟩ :=
    C5_skip_independence (fun _ => true) "NOW" ⟨[], [], 0, []⟩ [] [] evBad rfl
  exact ⟨p1, p2 [] [] [evC2, evBad]⟩

/-! ## Cache-coordinate invariant (C10) -/

theorem cache_coords_ok_process_event (d : Payload → Bool) (now : String)
    (st : IngestState) (ev : AssetEvent) (hc : cache_coords_ok st.cache) :
    cache_coords_ok (process_event d now st ev).cache := by
  rw [process_event_cache]
  split_ifs with h1 h2
  · exact hc
  · intro p hp
    rcases mem_dictSet _ _ _ p hp with hmem | hmem
    · exact hc p hmem
    · subst hmem
      exact h2
  · exact hc

theorem cache_coords_ok_process_batch (d : Payload → Bool) (now : String)
    (st : IngestState) (evs : List AssetEvent)
    (hc : cache_coords_ok st.cache) :
    cache_coords_ok (process_batch d now st evs).cache := by
  induction evs generalizing st with
  | nil => exact hc
  | cons ev rest ih =>
    exact ih _ (cache_coords_ok_process_event d now st ev hc)

theorem asset_last_weather_no_convError (c : List (String × CacheEntry))
    (hc : cache_coords_ok c) (aname : String) :
    asset_last_weather c aname ≠ WeatherResult.convError := by
  unfold asset_last_weather
  cases hk : norm_name (some aname) with
  | none => simp
  | some key =>
    cases hg : dictGet c key with
    | none => simp [hg]
    | some rec =>
      have h2 := hc _ (dictGet_mem c key rec hg)
      obtain ⟨la, hla⟩ := Option.isSome_iff_exists.mp h2.1
      obtain ⟨lo, hlo⟩ := Option.isSome_iff_exists.mp h2.2
      have hla2 : rec.lat = some la := hla
      have hlo2 : rec.lon = some lo := hlo
      simp [hg, hla2, hlo2]

/-- C10: starting from a cache in which every entry has both coordinates
(e.g. the empty cache), any sequence of ingested events preserves that
invariant — an entry is written only when both coordinates parsed — so
the weather endpoint's coordinate conversion never fails on a cache
produced by ingest. -/
theorem C10_cache_coords_invariant (d : Payload → Bool) (now : String)
    (st : IngestState) (evs : List AssetEvent)
    (hc : cache_coords_ok st.cache) :
    cache_coords_ok (process_batch d now st evs).cache ∧
    (∀ aname : String,
      asset_last_weather (process_batch d now st evs).cache aname ≠
        WeatherResult.convError) := by
  have hinv := cache_coords_ok_process_batch d now st evs hc
  exact ⟨hinv, fun aname => asset_last_weather_no_convError _ hinv aname⟩

/-- Witness for C10 on the batch `[evC2, evBad]` from the empty cache. -/
theorem C10_cache_coords_invariant_witness :
    cache_coords_ok (process_batch (fun _ => true) "NOW" ⟨[], [], 0, []⟩
      [evC2, evBad]).cache ∧
    asset_last_weather (process_batch (fun _ => true) "NOW" ⟨[], [], 0, []⟩
        [evC2, evBad]).cache "Sinar Mataram" ≠ WeatherResult.convError := by
  obtain ⟨p1, p2⟩ := C10_cache_coords_invariant (fun _ => true) "NOW"
    ⟨[], [], 0, []⟩ [evC2, evBad] (by simp [cache_coords_ok])
  exact ⟨p1, p2 "Sinar Mataram"⟩

/-! ## C7: absent optional payload fields -/

/-- A forwarded ingest record with no speed, heading, satellites or
altitude. -/
def ev7 : AssetEvent :=
  { name := some "Truck A", rx_time := some "T1", gmt_time := none,
    gps_valid := true, lat := some 1, lon := some 2,
    sp_raw := none, sp_unit_attr := none, heading := none,
    sats := none, alt := none, battery_level := none }

/-- C7 counterexample: `ev7` is forwarded (one delivery is attempted),
yet every absent optional field of the outbound location block is
*omitted* (`none`), not substituted with the sentinel `0` the claim
asserts. -/
theorem C7_counterexample :
    (process_event (fun _ => true) "NOW"
        ⟨[("Truck A", "8140018210000")], [], 0, []⟩ ev7).delivered =
      [(build_payload "NOW" ev7 "8140018210000", true)] ∧
    (build_payload "NOW" ev7 "8140018210000").location.speed = none ∧
    (build_payload "NOW" ev7 "8140018210000").location.speed ≠ some 0 ∧
    (build_payload "NOW" ev7 "8140018210000").location.heading = none ∧
    (build_payload "NOW" ev7 "8140018210000").location.satellites = none ∧
    (build_payload "NOW" ev7 "8140018210000").location.altitude = none :=
  ⟨rfl, rfl, by decide, rfl, rfl, rfl⟩

/-- C7 (amended): each optional field of the outbound location block
(altitude, satellites, speed, heading) that is absent from the event is
*omitted* from the outbound payload (represented as `none`), not
substituted with a sentinel; and the cache likewise stores no default for
an absent field. -/
theorem C7_amended_absent_fields_omitted (now : String) (ev : AssetEvent)
    (imei : String) :
    ((ev.sp_raw = none → (build_payload now ev imei).location.speed = none) ∧
     (ev.heading = none →
       (build_payload now ev imei).location.heading = none) ∧
     (ev.sats = none →
       (build_payload now ev imei).location.satellites = none) ∧
     (ev.alt = none →
       (build_payload now ev imei).location.altitude = none)) ∧
    ((ev.sp_raw = none → (build_cache_entry now ev).speed_kmh = none ∧
       (build_cache_entry now ev).speed_knots = none) ∧
     (ev.heading = none →
       (build_cache_entry now ev).heading_calculation = none)) := by
  refine ⟨⟨fun h => ?_, fun h => ?_, fun h => ?_, fun h => ?_⟩,
          ⟨fun h => ⟨?_, ?_⟩, fun h => ?_⟩⟩ <;>
    simp [build_payload, build_location, build_cache_entry,
      event_kmh_int_floor, event_knots_1dp_floor, event_v_mps,
      event_heading_deg, mps_to_kmh, mps_to_knots, h]

/-- Witness for the amended C7 at the concrete record `ev7`. -/
theorem C7_amended_absent_fields_omitted_witness :
    ((build_payload "NOW" ev7 "8140018210000").location.speed = none ∧
     (build_payload "NOW" ev7 "8140018210000").location.heading = none) ∧
    ((build_cache_entry "NOW" ev7).speed_kmh = none ∧
     (build_cache_entry "NOW" ev7).heading_calculation = none) := by
  obtain ⟨⟨p1, p2, p3, p4⟩, ⟨p5, p6⟩⟩ :=
    C7_amended_absent_fields_omitted "NOW" ev7 "8140018210000"
  exact ⟨⟨p1 rfl, p2 rfl⟩, ⟨(p5 rfl).1, p6 rfl⟩⟩

/-! ## C8: weather speed figure -/

/-- Ingest record with speed `1` and no unit attribute (fallback kmh):
canonical speed `1/3.6` m/s, i.e. `0.5399566…` knots. -/
def evC8 : AssetEvent :=
  { name := some "S", rx_time := some "T", gmt_time := none,
    gps_valid := true, lat := some 1, lon := some 2,
    sp_raw := some 1, sp_unit_attr := none, heading := none,
    sats := none, alt := none, battery_level := none }

/-- C8 counterexample: after ingesting `evC8`, the weather endpoint's
`speed_calculation` is the cached one-decimal-floor knots value `0.5`,
whereas the canonical knots value reported with 3-decimal precision would
be `0.540` — the two differ, so `speed_calculation` is not the 3-decimal
report of `mps × 1.943844`. -/
theorem C8_counterexample :
    asset_last_weather (process_event (fun _ => false) "NOW"
        ⟨[], [], 0, []⟩ evC8).cache "S" =
      WeatherResult.ok 1 2
        { asset_name := "S", timestamp := "T",
          heading_calculation := none, speed_calculation := 1/2 } ∧
    spec_round3 ((1 / (36/10 : ℚ)) * (1943844/1000000)) = 27/50 ∧
    (1/2 : ℚ) ≠ 27/50 := by
  refine ⟨?_, ?_, by norm_num⟩
  · have h1 : event_v_mps evC8 = some ((1 : ℚ) / (36/10)) := rfl
    have hfl : ⌊((1 : ℚ) / (36/10) * (1943844/1000000) * 10)⌋ = 5 := by
      rw [Int.floor_eq_iff]
      norm_num
    have hsk : (build_cache_entry "NOW" evC8).speed_knots =
        some (1/2 : ℚ) := by
      simp [build_cache_entry, event_knots_1dp_floor, h1, mps_to_knots, hfl]
      norm_num
    have hcache : (process_event (fun _ => false) "NOW"
        ⟨[], [], 0, []⟩ evC8).cache =
        [("s", build_cache_entry "NOW" evC8)] := by
      rw [process_event_cache]
      simp [show isBlank evC8.name = false from rfl,
        show evC8.lat.isSome = true from rfl,
        show evC8.lon.isSome = true from rfl,
        show event_key_norm evC8 = "s" from rfl, dictSet]
    unfold asset_last_weather
    rw [hcache]
    simp [show norm_name (some "S") = some "s" from rfl, dictGet,
      show (build_cache_entry "NOW" evC8).lat = some (1 : ℚ) from rfl,
      show (build_cache_entry "NOW" evC8).lon = some (2 : ℚ) from rfl,
      show (build_cache_entry "NOW" evC8).asset_name = "S" from rfl,
      show (build_cache_entry "NOW" evC8).rx_time = "T" from rfl,
      show (build_cache_entry "NOW" evC8).heading_calculation = none
        from rfl,
      weather_speed_calc, hsk]
  · unfold spec_round3
    have hr : round ((1 / (36/10 : ℚ)) * (1943844/1000000) * 1000) = 540 := by
      rw [round_eq, Int.floor_eq_iff]
      norm_num
    rw [hr]
    norm_num

/-- C8 (amended): the weather endpoint's `speed_calculation` is taken
directly from the cache's pre-computed knots value (defaulting to `0`
when absent), and for entries produced by ingest that cached value is the
*one-decimal floor* of `mps × 1.943844` — not a 3-decimal report. -/
theorem C8_amended_speed_from_cache (cache : List (String × CacheEntry))
    (aname key : String) (rec : CacheEntry)
    (hkey : norm_name (some aname) = some key)
    (hrec : dictGet cache key = some rec)
    (la lo : ℚ) (hla : rec.lat = some la) (hlo : rec.lon = some lo) :
    asset_last_weather cache aname =
      WeatherResult.ok la lo
        { asset_name := rec.asset_name, timestamp := rec.rx_time,
          heading_calculation := rec.heading_calculation,
          speed_calculation := rec.speed_knots.getD 0 } ∧
    (∀ (now : String) (ev : AssetEvent) (mps : ℚ),
      rec = build_cache_entry now ev → event_v_mps ev = some mps →
      rec.speed_knots =
        some ((⌊mps * (1943844/1000000) * 10⌋ : ℚ) / 10)) := by
  constructor
  · have hws : weather_speed_calc rec = rec.speed_knots.getD 0 := by
      unfold weather_speed_calc
      cases rec.speed_knots <;> rfl
    unfold asset_last_weather
    simp only [hkey, hrec, hla, hlo, hws]
  · intro now ev mps hb hm
    subst hb
    simp [build_cache_entry, event_knots_1dp_floor, hm, mps_to_knots]

/-- Witness for the amended C8 on the cache produced by ingesting
`evC8`. -/
theorem C8_amended_speed_from_cache_witness :
    asset_last_weather [("s", build_cache_entry "NOW" evC8)] "S" =
      WeatherResult.ok 1 2
        { asset_name := (build_cache_entry "NOW" evC8).asset_name,
          timestamp := (build_cache_entry "NOW" evC8).rx_time,
          heading_calculation :=
            (build_cache_entry "NOW" evC8).heading_calculation,
          speed_calculation :=
            (build_cache_entry "NOW" evC8).speed_knots.getD 0 } ∧
    (build_cache_entry "NOW" evC8).speed_knots =
      some ((⌊(1 : ℚ) / (36/10) * (1943844/1000000) * 10⌋ : ℚ) / 10) := by
  obtain ⟨p1, p2⟩ := C8_amended_speed_from_cache
    [("s", build_cache_entry "NOW" evC8)] "S" "s"
    (build_cache_entry "NOW" evC8) rfl (by simp [dictGet]) 1 2 rfl rfl
  exact ⟨p1, p2 "NOW" evC8 ((1 : ℚ) / (36/10)) rfl rfl⟩

/-! ## C9: duplicate adds to the device directory -/

/-- C9 counterexample: adding a mapping for a name that already has one
is not rejected — the existing mapping is overwritten. -/
theorem C9_counterexample :
    dictGet [("A", "111")] "A" = some "111" ∧
    add_mapping [("A", "111")] "A" "222" = [("A", "222")] ∧
    dictGet (add_mapping [("A", "111")] "A" "222") "A" ≠ some "111" ∧
    dictGet (add_mapping [("A", "111")] "A" "222") "A" = some "222" :=
  ⟨rfl, rfl, by decide, rfl⟩

/-- C9 (amended): `POST /mappings` never rejects a duplicate: it
overwrites any existing mapping for that exact display name
(last-write-wins), leaving all other names unchanged. -/
theorem C9_amended_overwrite (m : List (String × String))
    (nm imei : String) :
    dictGet (add_mapping m nm imei) nm = some imei ∧
    (∀ k, k ≠ nm → dictGet (add_mapping m nm imei) k = dictGet m k) :=
  ⟨dictGet_dictSet_self m nm imei,
   fun k hk => dictGet_dictSet_ne m nm k imei hk⟩

/-- Witness for the amended C9 on a directory that already maps `"A"`. -/
theorem C9_amended_overwrite_witness :
    dictGet (add_mapping [("A", "111")] "A" "222") "A" = some "222" ∧
    dictGet (add_mapping [("A", "111")] "A" "222") "B" =
      dictGet [("A", "111")] "B" :=
  ⟨(C9_amended_overwrite [("A", "111")] "A" "222").1,
   (C9_amended_overwrite [("A", "111")] "A" "222").2 "B" (by decide)⟩

end Lacak
